import Mathlib

/-!
Verification of the Banking Data Product Builder wizard (Llama-360).

This file gives a shallow embedding of the client-side core of the
repository: the keyword validator and the four-step wizard controller of
`DataBuilder` (src/llama-web/src/components/VideoGrid.jsx), and the
`DataBuilderService` API client.  React `useState` component state is
modelled as an explicit `WizardState` record; each event handler becomes a
pure function from the current state (and the outcome of the remote call it
awaits, supplied as a function argument) to the next state.  Remote calls
are modelled by `Except String` values: `Except.ok` is a successful JSON
response, `Except.error m` a thrown error with message `m`.
-/

/-- Result of `POST /api/interpret-usecase` as consumed by the component
(fields `data_product`, `confidence`, `reasoning`).  The JSON number
`confidence` is modelled as a rational. -/
structure InterpretResult where
  data_product : String
  confidence : Rat
  reasoning : String
  deriving DecidableEq

/-- Result of `POST /api/generate-data`.  The component guards on the
truthiness of `result.customer_ids`, so the field is an `Option`: `none`
models an absent (undefined) field. -/
structure GenerateResult where
  records_generated : Nat
  customer_ids : Option (List String)
  deriving DecidableEq

/-- The `mapping_report` object of a processing result. -/
structure MappingReport where
  mapped_fields : Nat
  deriving DecidableEq

/-- The `ingestion_report` object of a processing result. -/
structure IngestionReport where
  status : String
  deriving DecidableEq

/-- One entry of `certification_report.checks`. -/
structure CertCheck where
  passed : Bool
  score : Rat
  deriving DecidableEq

/-- The optional `certification_report` object of a processing result. -/
structure CertificationReport where
  certification_status : String
  checks : List (String × CertCheck)
  deriving DecidableEq

/-- Result of `POST /api/process-customer`. -/
structure ProcessResult where
  mapping_report : MappingReport
  ingestion_report : IngestionReport
  certification_report : Option CertificationReport
  deriving DecidableEq

/-- Result of `POST /api/generate-reports`. -/
structure ReportResult where
  json_report_url : String
  csv_export_url : String
  deriving DecidableEq

/-- The `backendStatus` state of the component. -/
structure BackendStatus where
  connected : Bool
  llmEnabled : Bool
  deriving DecidableEq

/-- The complete `useState` state of the `DataBuilder` component: step
counter, in-flight flag, error banner, backend status, and the per-step
entities (`useCase`, `useCaseResult`, `generatedData`, `customerId`,
`processingResult`, `reports`), plus the invalid-use-case popup flag. -/
structure WizardState where
  currentStep : Nat
  isLoading : Bool
  error : Option String
  backendStatus : BackendStatus
  useCase : String
  useCaseResult : Option InterpretResult
  generatedData : Option GenerateResult
  customerId : String
  processingResult : Option ProcessResult
  reports : Option ReportResult
  showInvalidPopup : Bool
  deriving DecidableEq

/-- The initial state of the component: all `useState` initialisers. -/
def initialWizard : WizardState where
  currentStep := 1
  isLoading := false
  error := none
  backendStatus := { connected := false, llmEnabled := false }
  useCase := ""
  useCaseResult := none
  generatedData := none
  customerId := ""
  processingResult := none
  reports := none
  showInvalidPopup := false

/-- The fixed `validKeywords` array of the component, transcribed verbatim. -/
def validKeywords : List String :=
  ["credit card", "loan", "mortgage", "banking", "account", "transaction", "payment",
   "deposit", "withdrawal", "transfer", "balance", "customer", "fraud", "risk",
   "investment", "savings", "checking", "debit", "credit", "score", "approval",
   "application", "interest", "rate", "financial", "bank", "lending", "borrowing",
   "debt", "income", "statement", "portfolio", "asset", "liability", "kyc", "know your customer",
   "identity", "verification", "onboarding", "compliance", "regulation", "aml", "due diligence"]

/-- JavaScript `s.trim()`: strips leading and trailing whitespace.
Modelled structurally on the character list so that it evaluates inside the
kernel (core `String.trim` computes the same string through `Substring`
byte positions). -/
def strTrim (s : String) : String :=
  ⟨((s.data.dropWhile Char.isWhitespace).reverse.dropWhile Char.isWhitespace).reverse⟩

/-- JavaScript `s.toLowerCase()` as per-character lowering, the behaviour
of core `String.toLower`: maps `Char.toLower` over the characters. -/
def strToLower (s : String) : String :=
  ⟨s.data.map Char.toLower⟩

/-- JavaScript `haystack.includes(needle)` on the underlying character
lists: `true` iff `sub` occurs contiguously inside `hay`. -/
def charsContain (hay sub : List Char) : Bool :=
  sub.isPrefixOf hay ||
    match hay with
    | [] => false
    | _ :: t => charsContain t sub

/-- JavaScript `s.includes(sub)` (substring containment) on strings. -/
def strIncludes (s sub : String) : Bool :=
  charsContain s.data sub.data

/-- The component's `validateUseCase`: lowercase the text and test whether
some entry of `validKeywords` occurs as a substring. -/
def validateUseCase (text : String) : Bool :=
  let lowercaseText := strToLower text
  validKeywords.any (fun keyword => strIncludes lowercaseText keyword)

/-- Handler `handleUseCaseSubmit`: trims the text; returns silently when the
trimmed text is empty; shows the invalid popup when validation fails;
otherwise awaits `interpretUseCase` (the `svc` argument) and either records
the result or records the error banner.  `setIsLoading(true)` followed by
the `finally` clause nets to `isLoading := false`. -/
def handleUseCaseSubmit (svc : String → Except String InterpretResult)
    (s : WizardState) : WizardState :=
  let trimmedUseCase := strTrim s.useCase
  if trimmedUseCase = "" then s
  else if validateUseCase trimmedUseCase = false then { s with showInvalidPopup := true }
  else
    match svc trimmedUseCase with
    | Except.ok result =>
        { s with isLoading := false, error := none, useCaseResult := some result }
    | Except.error m =>
        { s with isLoading := false, error := some ("Failed to interpret use case: " ++ m) }

/-- Handler `handleGenerateData`: returns when `useCaseResult` is null;
otherwise awaits `generateData(useCaseResult.data_product)`; on success
records the dataset, defaults `customerId` to the first returned id when
`customer_ids` is present and non-empty, and advances to step 2; on failure
records the error banner only. -/
def handleGenerateData (svc : String → Except String GenerateResult)
    (s : WizardState) : WizardState :=
  match s.useCaseResult with
  | none => s
  | some ucr =>
    match svc ucr.data_product with
    | Except.ok result =>
        let s1 := { s with error := none, generatedData := some result }
        let s2 :=
          match result.customer_ids with
          | some ids => if ids.length > 0 then { s1 with customerId := ids.headD "" } else s1
          | none => s1
        { s2 with currentStep := 2, isLoading := false }
    | Except.error m =>
        { s with error := some ("Failed to generate data: " ++ m), isLoading := false }

/-- Handler `handleProcessCustomer`: returns when `useCaseResult` is null or
`customerId` is empty; otherwise awaits `processCustomer`; on success
records the processing result and advances to step 3; on failure records
the error banner only. -/
def handleProcessCustomer (svc : String → String → Except String ProcessResult)
    (s : WizardState) : WizardState :=
  match s.useCaseResult with
  | none => s
  | some ucr =>
    if s.customerId = "" then s
    else
      match svc ucr.data_product s.customerId with
      | Except.ok result =>
          { s with error := none, processingResult := some result,
                   currentStep := 3, isLoading := false }
      | Except.error m =>
          { s with error := some ("Failed to process customer data: " ++ m), isLoading := false }

/-- Handler `handleGenerateReports`: returns when `useCaseResult` is null or
`customerId` is empty; otherwise awaits `generateReports`; on success
records the report links and advances to step 4; on failure records the
error banner only. -/
def handleGenerateReports (svc : String → String → Except String ReportResult)
    (s : WizardState) : WizardState :=
  match s.useCaseResult with
  | none => s
  | some ucr =>
    if s.customerId = "" then s
    else
      match svc ucr.data_product s.customerId with
      | Except.ok result =>
          { s with error := none, reports := some result,
                   currentStep := 4, isLoading := false }
      | Except.error m =>
          { s with error := some ("Failed to generate reports: " ++ m), isLoading := false }

/-- The `onClick` of the Start New Analysis button: sets the step to 1 and
clears the six wizard entities.  It does not touch `error`, `isLoading`,
`backendStatus` or `showInvalidPopup`. -/
def resetWizard (s : WizardState) : WizardState :=
  { s with currentStep := 1, useCase := "", useCaseResult := none,
           generatedData := none, customerId := "", processingResult := none,
           reports := none }

/-- Whether the Interpret Use Case submit button is invocable: its panel is
rendered only at step 1, and the button carries
`disabled=\x7bisLoading || !useCase.trim()\x7d`. -/
def interpretInvocable (s : WizardState) : Bool :=
  s.currentStep == 1 && !s.isLoading && !(strTrim s.useCase == "")

/-- Whether the Generate Synthetic Data button is invocable: rendered at
step 1 only when `useCaseResult` is non-null, with `disabled=\x7bisLoading\x7d`. -/
def generateInvocable (s : WizardState) : Bool :=
  s.currentStep == 1 && s.useCaseResult.isSome && !s.isLoading

/-- Whether the Process Selected Customer button is invocable: rendered at
step 2 only when `generatedData` is non-null, with
`disabled=\x7b!customerId || isLoading\x7d`. -/
def processInvocable (s : WizardState) : Bool :=
  s.currentStep == 2 && s.generatedData.isSome && !(s.customerId == "") && !s.isLoading

/-- Whether the Generate Reports button is invocable: rendered at step 3
only when `processingResult` is non-null, with `disabled=\x7bisLoading\x7d`. -/
def reportsInvocable (s : WizardState) : Bool :=
  s.currentStep == 3 && s.processingResult.isSome && !s.isLoading

/-- The four mutating step operations of the wizard. -/
inductive Op where
  | interpret
  | generate
  | process
  | report
  deriving DecidableEq

/-- Invocability of each operation's triggering button in a given state. -/
def opInvocable (s : WizardState) : Op → Bool
  | Op.interpret => interpretInvocable s
  | Op.generate => generateInvocable s
  | Op.process => processInvocable s
  | Op.report => reportsInvocable s

/-- Beginning of a handler run: possible only when the triggering button is
invocable, and its first effect is `setIsLoading(true)`.  Returns `none`
when the operation cannot be started from `s`. -/
def startOp (s : WizardState) (o : Op) : Option WizardState :=
  if opInvocable s o then some { s with isLoading := true } else none

/-- A fetch `Response` as consumed by `DataBuilderService`: the `ok` flag,
the numeric `status`, the `error` field of the JSON error body when the
server provides one (`none` models an absent field), and the parsed success
body.  `body` is read by the client only when `ok` is true. -/
structure HttpResponse (α : Type) where
  ok : Bool
  status : Nat
  errorField : Option String
  body : α
  deriving DecidableEq

/-- The JavaScript expression `errorData.error || generic`: the server
message when present and non-empty (truthy), else the generic status-code
message. -/
def errorOrStatus (errorField : Option String) (status : Nat) : String :=
  match errorField with
  | some m => if m = "" then "Server returned status code " ++ toString status else m
  | none => "Server returned status code " ++ toString status

/-- Body of a successful `GET /api/health` response, as read by the
component (`healthStatus.llm_enabled`). -/
structure BackendHealth where
  llm_enabled : Bool
  deriving DecidableEq

namespace DataBuilderService

/-- The configured base URL of the API client. -/
def baseUrl : String := "http://localhost:5000"

/-- The API path version segment of the client. -/
def apiVersion : String := "/api"

/-- `getFullReportUrl`: resolves a report path against the base URL. -/
def getFullReportUrl (reportPath : String) : String :=
  baseUrl ++ reportPath

/-- `checkHealth`: a transport error is re-thrown; a non-ok response throws
the generic status-code message (the response body is never consulted on
this path); an ok response yields the parsed body.  The `fetched` argument
is the outcome of the `fetch` call together with body parsing. -/
def checkHealth (fetched : Except String (HttpResponse BackendHealth)) :
    Except String BackendHealth :=
  match fetched with
  | Except.error e => Except.error e
  | Except.ok resp =>
      if resp.ok then Except.ok resp.body
      else Except.error ("Server returned status code " ++ toString resp.status)

/-- `interpretUseCase`: a transport error is re-thrown; a non-ok response
throws `errorData.error || generic`; an ok response yields the parsed body. -/
def interpretUseCase (fetched : Except String (HttpResponse InterpretResult)) :
    Except String InterpretResult :=
  match fetched with
  | Except.error e => Except.error e
  | Except.ok resp =>
      if resp.ok then Except.ok resp.body
      else Except.error (errorOrStatus resp.errorField resp.status)

/-- `generateData`: a transport error is re-thrown; a non-ok response throws
`errorData.error || generic`; an ok response yields the parsed body. -/
def generateData (fetched : Except String (HttpResponse GenerateResult)) :
    Except String GenerateResult :=
  match fetched with
  | Except.error e => Except.error e
  | Except.ok resp =>
      if resp.ok then Except.ok resp.body
      else Except.error (errorOrStatus resp.errorField resp.status)

/-- `processCustomer`: a transport error is re-thrown; a non-ok response
throws `errorData.error || generic`; an ok response yields the parsed body. -/
def processCustomer (fetched : Except String (HttpResponse ProcessResult)) :
    Except String ProcessResult :=
  match fetched with
  | Except.error e => Except.error e
  | Except.ok resp =>
      if resp.ok then Except.ok resp.body
      else Except.error (errorOrStatus resp.errorField resp.status)

/-- `generateReports`: a transport error is re-thrown; a non-ok response
throws `errorData.error || generic`; an ok response yields the parsed body. -/
def generateReports (fetched : Except String (HttpResponse ReportResult)) :
    Except String ReportResult :=
  match fetched with
  | Except.error e => Except.error e
  | Except.ok resp =>
      if resp.ok then Except.ok resp.body
      else Except.error (errorOrStatus resp.errorField resp.status)

end DataBuilderService

deriving instance DecidableEq for Except

/-- Concrete interpretation result used to exercise the theorems. -/
def demoInterpret : InterpretResult :=
  { data_product := "fraud_alerts", confidence := 1, reasoning := "fraud keywords" }

/-- Concrete generation result with two customer ids. -/
def demoGenerate : GenerateResult :=
  { records_generated := 25, customer_ids := some ["CUST001", "CUST002"] }

/-- Concrete generation result with an empty customer-id sequence. -/
def demoGenerateEmpty : GenerateResult :=
  { records_generated := 0, customer_ids := some [] }

/-- Concrete processing result. -/
def demoProcess : ProcessResult :=
  { mapping_report := { mapped_fields := 12 },
    ingestion_report := { status := "success" },
    certification_report := none }

/-- Concrete report-links result. -/
def demoReports : ReportResult :=
  { json_report_url := "/reports/fraud.json", csv_export_url := "/reports/fraud.csv" }

/-- Initial state after the user typed a valid use case. -/
def demoState : WizardState :=
  { initialWizard with useCase := "We need fraud detection for transactions" }

/-- Initial state after the user typed an out-of-domain use case. -/
def demoInvalidState : WizardState :=
  { initialWizard with useCase := "nice weather today" }

/-- Initial state after the user typed only whitespace. -/
def demoBlankState : WizardState :=
  { initialWizard with useCase := "   " }

/-- State right after a successful interpretation. -/
def demoInterpretedState : WizardState :=
  { demoState with useCaseResult := some demoInterpret }

/-- State at step 2 with a selected customer, ready to process. -/
def demoStep2State : WizardState :=
  { demoInterpretedState with currentStep := 2,
                              generatedData := some demoGenerate,
                              customerId := "CUST001" }

/-- State at step 4 with everything populated and an error banner shown. -/
def demoStep4State : WizardState :=
  { demoStep2State with currentStep := 4,
                        processingResult := some demoProcess,
                        reports := some demoReports,
                        error := some "Failed to generate reports: boom" }

/-- Service stub whose interpretation call always succeeds. -/
def svcInterpretOk : String → Except String InterpretResult :=
  fun _ => Except.ok demoInterpret

/-- Service stub whose generation call always succeeds with two ids. -/
def svcGenerateOk : String → Except String GenerateResult :=
  fun _ => Except.ok demoGenerate

/-- Service stub whose generation call succeeds with an empty id sequence. -/
def svcGenerateEmptyOk : String → Except String GenerateResult :=
  fun _ => Except.ok demoGenerateEmpty

/-- Service stub whose processing call always succeeds. -/
def svcProcessOk : String → String → Except String ProcessResult :=
  fun _ _ => Except.ok demoProcess

/-- Service stub whose report call always succeeds. -/
def svcReportsOk : String → String → Except String ReportResult :=
  fun _ _ => Except.ok demoReports

/-- Service stub whose interpretation call always fails. -/
def svcInterpretErr : String → Except String InterpretResult :=
  fun _ => Except.error "boom"

/-- Service stub whose generation call always fails. -/
def svcGenerateErr : String → Except String GenerateResult :=
  fun _ => Except.error "boom"

/-- Service stub whose processing call always fails. -/
def svcProcessErr : String → String → Except String ProcessResult :=
  fun _ _ => Except.error "boom"

/-- Service stub whose report call always fails. -/
def svcReportsErr : String → String → Except String ReportResult :=
  fun _ _ => Except.error "boom"

/-- A failed health response carrying a server-provided error message. -/
def demoHealthErrorResponse : HttpResponse BackendHealth :=
  { ok := false, status := 500, errorField := some "boom",
    body := { llm_enabled := false } }

/-- A failed interpretation response carrying a server-provided message. -/
def demoInterpretErrorResponse : HttpResponse InterpretResult :=
  { ok := false, status := 404, errorField := some "boom", body := demoInterpret }

/-- A failed generation response with no error field in the body. -/
def demoGenerateErrorResponse : HttpResponse GenerateResult :=
  { ok := false, status := 502, errorField := none, body := demoGenerate }

/-- A failed processing response carrying a server-provided message. -/
def demoProcessErrorResponse : HttpResponse ProcessResult :=
  { ok := false, status := 400, errorField := some "bad customer", body := demoProcess }

/-- A failed report response carrying an empty (falsy) error field. -/
def demoReportsErrorResponse : HttpResponse ReportResult :=
  { ok := false, status := 500, errorField := some "", body := demoReports }

/-- Frame predicate used by the failure-semantics theorem: the step counter
and the entities accumulated by the steps (use-case text, interpretation
result, generated dataset, selected customer id, processing result, report
links) of `t` agree with those of `s`. -/
def stepFrameEq (s t : WizardState) : Prop :=
  t.currentStep = s.currentStep ∧ t.useCase = s.useCase ∧
  t.useCaseResult = s.useCaseResult ∧ t.generatedData = s.generatedData ∧
  t.customerId = s.customerId ∧ t.processingResult = s.processingResult ∧
  t.reports = s.reports

instance (s t : WizardState) : Decidable (stepFrameEq s t) := by
  unfold stepFrameEq
  infer_instance

/-- Bridging lemma: the executable substring test agrees with list infix. -/
theorem charsContain_iff (hay sub : List Char) :
    charsContain hay sub = true ↔ sub <:+: hay := by
  induction hay with
  | nil => simp [charsContain]
  | cons h t ih =>
    rw [charsContain]
    simp [ih, List.infix_cons_iff]

/-- `strIncludes` decides substring containment on the character lists. -/
theorem strIncludes_iff (s sub : String) :
    strIncludes s sub = true ↔ sub.data <:+: s.data :=
  charsContain_iff s.data sub.data

/-- Submitting with a blank (after trimming) use case is the identity. -/
theorem handleUseCaseSubmit_of_blank (svc : String → Except String InterpretResult)
    (s : WizardState) (h : strTrim s.useCase = "") :
    handleUseCaseSubmit svc s = s := by
  simp [handleUseCaseSubmit, h]

/-- Submitting a non-blank use case that fails validation only sets the
invalid popup flag. -/
theorem handleUseCaseSubmit_of_invalid (svc : String → Except String InterpretResult)
    (s : WizardState) (h1 : strTrim s.useCase ≠ "")
    (h2 : validateUseCase (strTrim s.useCase) = false) :
    handleUseCaseSubmit svc s = { s with showInvalidPopup := true } := by
  simp [handleUseCaseSubmit, h1, h2]

/-- Successful interpretation records the result and clears the banner. -/
theorem handleUseCaseSubmit_of_ok (svc : String → Except String InterpretResult)
    (s : WizardState) (r : InterpretResult) (h1 : strTrim s.useCase ≠ "")
    (h2 : validateUseCase (strTrim s.useCase) = true)
    (h3 : svc (strTrim s.useCase) = Except.ok r) :
    handleUseCaseSubmit svc s =
      { s with isLoading := false, error := none, useCaseResult := some r } := by
  simp [handleUseCaseSubmit, h1, h2, h3]

/-- Failed interpretation records the error banner only. -/
theorem handleUseCaseSubmit_of_err (svc : String → Except String InterpretResult)
    (s : WizardState) (m : String) (h1 : strTrim s.useCase ≠ "")
    (h2 : validateUseCase (strTrim s.useCase) = true)
    (h3 : svc (strTrim s.useCase) = Except.error m) :
    handleUseCaseSubmit svc s =
      { s with isLoading := false, error := some ("Failed to interpret use case: " ++ m) } := by
  simp [handleUseCaseSubmit, h1, h2, h3]

/-- Successful generation with a non-empty id sequence records the dataset,
selects the first id and advances to step 2. -/
theorem handleGenerateData_of_ok_ids (svc : String → Except String GenerateResult)
    (s : WizardState) (u : InterpretResult) (r : GenerateResult) (c : String) (rest : List String)
    (h1 : s.useCaseResult = some u)
    (h2 : svc u.data_product = Except.ok r)
    (h3 : r.customer_ids = some (c :: rest)) :
    handleGenerateData svc s =
      { s with error := none, generatedData := some r, customerId := c,
               currentStep := 2, isLoading := false } := by
  simp [handleGenerateData, h1, h2, h3]

/-- Successful generation with an empty id sequence records the dataset and
advances to step 2 without touching the selected customer id. -/
theorem handleGenerateData_of_ok_empty (svc : String → Except String GenerateResult)
    (s : WizardState) (u : InterpretResult) (r : GenerateResult)
    (h1 : s.useCaseResult = some u)
    (h2 : svc u.data_product = Except.ok r)
    (h3 : r.customer_ids = some []) :
    handleGenerateData svc s =
      { s with error := none, generatedData := some r,
               currentStep := 2, isLoading := false } := by
  simp [handleGenerateData, h1, h2, h3]

/-- Failed generation records the error banner only. -/
theorem handleGenerateData_of_err (svc : String → Except String GenerateResult)
    (s : WizardState) (u : InterpretResult) (m : String)
    (h1 : s.useCaseResult = some u)
    (h2 : svc u.data_product = Except.error m) :
    handleGenerateData svc s =
      { s with error := some ("Failed to generate data: " ++ m), isLoading := false } := by
  simp [handleGenerateData, h1, h2]

/-- Successful processing records the result and advances to step 3. -/
theorem handleProcessCustomer_of_ok (svc : String → String → Except String ProcessResult)
    (s : WizardState) (u : InterpretResult) (r : ProcessResult)
    (h1 : s.useCaseResult = some u) (hc : s.customerId ≠ "")
    (h2 : svc u.data_product s.customerId = Except.ok r) :
    handleProcessCustomer svc s =
      { s with error := none, processingResult := some r,
               currentStep := 3, isLoading := false } := by
  simp [handleProcessCustomer, h1, hc, h2]

/-- Failed processing records the error banner only. -/
theorem handleProcessCustomer_of_err (svc : String → String → Except String ProcessResult)
    (s : WizardState) (u : InterpretResult) (m : String)
    (h1 : s.useCaseResult = some u) (hc : s.customerId ≠ "")
    (h2 : svc u.data_product s.customerId = Except.error m) :
    handleProcessCustomer svc s =
      { s with error := some ("Failed to process customer data: " ++ m), isLoading := false } := by
  simp [handleProcessCustomer, h1, hc, h2]

/-- Successful report generation records the links and advances to step 4. -/
theorem handleGenerateReports_of_ok (svc : String → String → Except String ReportResult)
    (s : WizardState) (u : InterpretResult) (r : ReportResult)
    (h1 : s.useCaseResult = some u) (hc : s.customerId ≠ "")
    (h2 : svc u.data_product s.customerId = Except.ok r) :
    handleGenerateReports svc s =
      { s with error := none, reports := some r,
               currentStep := 4, isLoading := false } := by
  simp [handleGenerateReports, h1, hc, h2]

/-- Failed report generation records the error banner only. -/
theorem handleGenerateReports_of_err (svc : String → String → Except String ReportResult)
    (s : WizardState) (u : InterpretResult) (m : String)
    (h1 : s.useCaseResult = some u) (hc : s.customerId ≠ "")
    (h2 : svc u.data_product s.customerId = Except.error m) :
    handleGenerateReports svc s =
      { s with error := some ("Failed to generate reports: " ++ m), isLoading := false } := by
  simp [handleGenerateReports, h1, hc, h2]

/-- C1: for every input string `T`, `validateUseCase T` returns `true` iff
the lowercase form of `T` contains some element of the fixed
`validKeywords` list as a substring; in particular it returns `false` on
the empty string (and hence on any string containing no keyword). -/
theorem validateUseCase_spec :
    (∀ T : String, validateUseCase T = true ↔
        ∃ k, k ∈ validKeywords ∧ k.data <:+: (strToLower T).data) ∧
    validateUseCase "" = false := by
  constructor
  · intro T
    simp [validateUseCase, List.any_eq_true, strIncludes_iff]
  · decide

/-- Witness for C1: "Fraud detection" is accepted via the keyword "fraud". -/
theorem validateUseCase_spec_witness : validateUseCase "Fraud detection" = true :=
  (validateUseCase_spec.1 "Fraud detection").mpr ⟨"fraud", by decide, by decide⟩

/-- C2: when interpret, generate, process and report all succeed in order,
the final state has step counter 4 and each of the four result entities
equal to the value returned by the corresponding call. -/
theorem wizard_happy_path
    (svcI : String → Except String InterpretResult)
    (svcG : String → Except String GenerateResult)
    (svcP : String → String → Except String ProcessResult)
    (svcR : String → String → Except String ReportResult)
    (s : WizardState) (r1 : InterpretResult) (r2 : GenerateResult)
    (r3 : ProcessResult) (r4 : ReportResult) (c : String) (rest : List String)
    (hne : strTrim s.useCase ≠ "")
    (hval : validateUseCase (strTrim s.useCase) = true)
    (hI : svcI (strTrim s.useCase) = Except.ok r1)
    (hG : svcG r1.data_product = Except.ok r2)
    (hids : r2.customer_ids = some (c :: rest))
    (hc : c ≠ "")
    (hP : svcP r1.data_product c = Except.ok r3)
    (hR : svcR r1.data_product c = Except.ok r4) :
    (handleGenerateReports svcR (handleProcessCustomer svcP
        (handleGenerateData svcG (handleUseCaseSubmit svcI s)))).currentStep = 4 ∧
    (handleGenerateReports svcR (handleProcessCustomer svcP
        (handleGenerateData svcG (handleUseCaseSubmit svcI s)))).useCaseResult = some r1 ∧
    (handleGenerateReports svcR (handleProcessCustomer svcP
        (handleGenerateData svcG (handleUseCaseSubmit svcI s)))).generatedData = some r2 ∧
    (handleGenerateReports svcR (handleProcessCustomer svcP
        (handleGenerateData svcG (handleUseCaseSubmit svcI s)))).processingResult = some r3 ∧
    (handleGenerateReports svcR (handleProcessCustomer svcP
        (handleGenerateData svcG (handleUseCaseSubmit svcI s)))).reports = some r4 := by
  rw [handleUseCaseSubmit_of_ok svcI s r1 hne hval hI]
  rw [handleGenerateData_of_ok_ids svcG _ r1 r2 c rest rfl hG hids]
  rw [handleProcessCustomer_of_ok svcP _ r1 r3 rfl hc hP]
  rw [handleGenerateReports_of_ok svcR _ r1 r4 rfl hc hR]
  exact ⟨rfl, rfl, rfl, rfl, rfl⟩

/-- Witness for C2: the concrete fraud-detection run ends at step 4 with
all four results recorded. -/
theorem wizard_happy_path_witness :
    (handleGenerateReports svcReportsOk (handleProcessCustomer svcProcessOk
        (handleGenerateData svcGenerateOk (handleUseCaseSubmit svcInterpretOk demoState)))).currentStep = 4 ∧
    (handleGenerateReports svcReportsOk (handleProcessCustomer svcProcessOk
        (handleGenerateData svcGenerateOk (handleUseCaseSubmit svcInterpretOk demoState)))).useCaseResult = some demoInterpret ∧
    (handleGenerateReports svcReportsOk (handleProcessCustomer svcProcessOk
        (handleGenerateData svcGenerateOk (handleUseCaseSubmit svcInterpretOk demoState)))).generatedData = some demoGenerate ∧
    (handleGenerateReports svcReportsOk (handleProcessCustomer svcProcessOk
        (handleGenerateData svcGenerateOk (handleUseCaseSubmit svcInterpretOk demoState)))).processingResult = some demoProcess ∧
    (handleGenerateReports svcReportsOk (handleProcessCustomer svcProcessOk
        (handleGenerateData svcGenerateOk (handleUseCaseSubmit svcInterpretOk demoState)))).reports = some demoReports :=
  wizard_happy_path svcInterpretOk svcGenerateOk svcProcessOk svcReportsOk demoState
    demoInterpret demoGenerate demoProcess demoReports "CUST001" ["CUST002"]
    (by decide) (by decide) rfl rfl rfl (by decide) rfl rfl

/-- C3: a failed remote call at any of the four steps leaves the step
counter and all step entities unchanged and only sets the error banner. -/
theorem wizard_failure_frame :
    (∀ (svc : String → Except String InterpretResult) (s : WizardState) (m : String),
      strTrim s.useCase ≠ "" → validateUseCase (strTrim s.useCase) = true →
      svc (strTrim s.useCase) = Except.error m →
      stepFrameEq s (handleUseCaseSubmit svc s) ∧
        (handleUseCaseSubmit svc s).error = some ("Failed to interpret use case: " ++ m)) ∧
    (∀ (svc : String → Except String GenerateResult) (s : WizardState)
        (u : InterpretResult) (m : String),
      s.useCaseResult = some u → svc u.data_product = Except.error m →
      stepFrameEq s (handleGenerateData svc s) ∧
        (handleGenerateData svc s).error = some ("Failed to generate data: " ++ m)) ∧
    (∀ (svc : String → String → Except String ProcessResult) (s : WizardState)
        (u : InterpretResult) (m : String),
      s.useCaseResult = some u → s.customerId ≠ "" →
      svc u.data_product s.customerId = Except.error m →
      stepFrameEq s (handleProcessCustomer svc s) ∧
        (handleProcessCustomer svc s).error = some ("Failed to process customer data: " ++ m)) ∧
    (∀ (svc : String → String → Except String ReportResult) (s : WizardState)
        (u : InterpretResult) (m : String),
      s.useCaseResult = some u → s.customerId ≠ "" →
      svc u.data_product s.customerId = Except.error m →
      stepFrameEq s (handleGenerateReports svc s) ∧
        (handleGenerateReports svc s).error = some ("Failed to generate reports: " ++ m)) := by
  refine ⟨?_, ?_, ?_, ?_⟩
  · intro svc s m h1 h2 h3
    rw [handleUseCaseSubmit_of_err svc s m h1 h2 h3]
    exact ⟨⟨rfl, rfl, rfl, rfl, rfl, rfl, rfl⟩, rfl⟩
  · intro svc s u m h1 h2
    rw [handleGenerateData_of_err svc s u m h1 h2]
    exact ⟨⟨rfl, rfl, rfl, rfl, rfl, rfl, rfl⟩, rfl⟩
  · intro svc s u m h1 hc h2
    rw [handleProcessCustomer_of_err svc s u m h1 hc h2]
    exact ⟨⟨rfl, rfl, rfl, rfl, rfl, rfl, rfl⟩, rfl⟩
  · intro svc s u m h1 hc h2
    rw [handleGenerateReports_of_err svc s u m h1 hc h2]
    exact ⟨⟨rfl, rfl, rfl, rfl, rfl, rfl, rfl⟩, rfl⟩

/-- Witness for C3: failing each step at a concrete state preserves the
frame and sets the respective banner. -/
theorem wizard_failure_frame_witness :
    (stepFrameEq demoState (handleUseCaseSubmit svcInterpretErr demoState) ∧
      (handleUseCaseSubmit svcInterpretErr demoState).error =
        some ("Failed to interpret use case: " ++ "boom")) ∧
    (stepFrameEq demoStep2State (handleGenerateData svcGenerateErr demoStep2State) ∧
      (handleGenerateData svcGenerateErr demoStep2State).error =
        some ("Failed to generate data: " ++ "boom")) ∧
    (stepFrameEq demoStep2State (handleProcessCustomer svcProcessErr demoStep2State) ∧
      (handleProcessCustomer svcProcessErr demoStep2State).error =
        some ("Failed to process customer data: " ++ "boom")) ∧
    (stepFrameEq demoStep2State (handleGenerateReports svcReportsErr demoStep2State) ∧
      (handleGenerateReports svcReportsErr demoStep2State).error =
        some ("Failed to generate reports: " ++ "boom")) :=
  ⟨wizard_failure_frame.1 svcInterpretErr demoState "boom" (by decide) (by decide) rfl,
   wizard_failure_frame.2.1 svcGenerateErr demoStep2State demoInterpret "boom" rfl rfl,
   wizard_failure_frame.2.2.1 svcProcessErr demoStep2State demoInterpret "boom" rfl (by decide) rfl,
   wizard_failure_frame.2.2.2 svcReportsErr demoStep2State demoInterpret "boom" rfl (by decide) rfl⟩

/-- C4: from any step-4 state, Start New Analysis yields step 1 with the
use-case text and customer id empty and the four result entities null. -/
theorem reset_clears_state (s : WizardState) (_h : s.currentStep = 4) :
    (resetWizard s).currentStep = 1 ∧ (resetWizard s).useCase = "" ∧
    (resetWizard s).useCaseResult = none ∧ (resetWizard s).generatedData = none ∧
    (resetWizard s).customerId = "" ∧ (resetWizard s).processingResult = none ∧
    (resetWizard s).reports = none :=
  ⟨rfl, rfl, rfl, rfl, rfl, rfl, rfl⟩

/-- Witness for C4: resetting the concrete finished state clears it. -/
theorem reset_clears_state_witness :
    (resetWizard demoStep4State).currentStep = 1 ∧ (resetWizard demoStep4State).useCase = "" ∧
    (resetWizard demoStep4State).useCaseResult = none ∧
    (resetWizard demoStep4State).generatedData = none ∧
    (resetWizard demoStep4State).customerId = "" ∧
    (resetWizard demoStep4State).processingResult = none ∧
    (resetWizard demoStep4State).reports = none :=
  reset_clears_state demoStep4State rfl

/-- C5: submitting a non-blank use case that fails keyword validation only
shows the invalid-use-case popup: the result is independent of the
interpretation service (it is never invoked) and every other state field,
the step counter included, is unchanged. -/
theorem invalid_usecase_blocks (svc : String → Except String InterpretResult)
    (s : WizardState) (h1 : strTrim s.useCase ≠ "")
    (h2 : validateUseCase (strTrim s.useCase) = false) :
    handleUseCaseSubmit svc s = { s with showInvalidPopup := true } :=
  handleUseCaseSubmit_of_invalid svc s h1 h2

/-- Witness for C5: the out-of-domain text "nice weather today" triggers
the popup and changes nothing else. -/
theorem invalid_usecase_blocks_witness :
    handleUseCaseSubmit svcInterpretOk demoInvalidState =
      { demoInvalidState with showInvalidPopup := true } :=
  invalid_usecase_blocks svcInterpretOk demoInvalidState (by decide) (by decide)

/-- C6: after a successful generation, a non-empty `customer_ids` sequence
selects its first element as the customer id; an empty sequence leaves the
(empty) customer id untouched and the process action stays disabled. -/
theorem generate_customer_selection :
    (∀ (svc : String → Except String GenerateResult) (s : WizardState)
        (u : InterpretResult) (r : GenerateResult) (c : String) (rest : List String),
      s.useCaseResult = some u → svc u.data_product = Except.ok r →
      r.customer_ids = some (c :: rest) →
      (handleGenerateData svc s).customerId = c) ∧
    (∀ (svc : String → Except String GenerateResult) (s : WizardState)
        (u : InterpretResult) (r : GenerateResult),
      s.useCaseResult = some u → s.customerId = "" →
      svc u.data_product = Except.ok r → r.customer_ids = some [] →
      (handleGenerateData svc s).customerId = "" ∧
        processInvocable (handleGenerateData svc s) = false) := by
  constructor
  · intro svc s u r c rest h1 h2 h3
    rw [handleGenerateData_of_ok_ids svc s u r c rest h1 h2 h3]
  · intro svc s u r h1 hc h2 h3
    rw [handleGenerateData_of_ok_empty svc s u r h1 h2 h3]
    exact ⟨hc, by simp [processInvocable, hc]⟩

/-- Witness for C6: the two-id generation selects "CUST001"; the empty
generation leaves the id empty with processing disabled. -/
theorem generate_customer_selection_witness :
    (handleGenerateData svcGenerateOk demoInterpretedState).customerId = "CUST001" ∧
    (handleGenerateData svcGenerateEmptyOk demoInterpretedState).customerId = "" ∧
    processInvocable (handleGenerateData svcGenerateEmptyOk demoInterpretedState) = false :=
  ⟨generate_customer_selection.1 svcGenerateOk demoInterpretedState demoInterpret demoGenerate
      "CUST001" ["CUST002"] rfl rfl rfl,
   (generate_customer_selection.2 svcGenerateEmptyOk demoInterpretedState demoInterpret
      demoGenerateEmpty rfl rfl rfl rfl).1,
   (generate_customer_selection.2 svcGenerateEmptyOk demoInterpretedState demoInterpret
      demoGenerateEmpty rfl rfl rfl rfl).2⟩

/-- C7 counterexample: `checkHealth` never consults the server-provided
error message: on a failed response whose body carries `error = "boom"`, it
throws the generic status-code message, not "boom". -/
theorem checkHealth_ignores_server_message :
    demoHealthErrorResponse.ok = false ∧
    demoHealthErrorResponse.errorField = some "boom" ∧
    DataBuilderService.checkHealth (Except.ok demoHealthErrorResponse) =
      Except.error "Server returned status code 500" ∧
    DataBuilderService.checkHealth (Except.ok demoHealthErrorResponse) ≠
      Except.error "boom" :=
  ⟨rfl, rfl, by decide, by decide⟩

/-- C7 (amended): the four POST operations throw the server-provided error
message when it is present and non-empty, and otherwise the generic
status-code message; `checkHealth` always throws the generic status-code
message; all five re-throw the underlying transport error. -/
theorem api_error_messages :
    (∀ e : String, DataBuilderService.checkHealth (Except.error e) = Except.error e) ∧
    (∀ resp : HttpResponse BackendHealth, resp.ok = false →
      DataBuilderService.checkHealth (Except.ok resp) =
        Except.error ("Server returned status code " ++ toString resp.status)) ∧
    (∀ e : String, DataBuilderService.interpretUseCase (Except.error e) = Except.error e) ∧
    (∀ resp : HttpResponse InterpretResult, resp.ok = false →
      DataBuilderService.interpretUseCase (Except.ok resp) =
        Except.error (errorOrStatus resp.errorField resp.status)) ∧
    (∀ e : String, DataBuilderService.generateData (Except.error e) = Except.error e) ∧
    (∀ resp : HttpResponse GenerateResult, resp.ok = false →
      DataBuilderService.generateData (Except.ok resp) =
        Except.error (errorOrStatus resp.errorField resp.status)) ∧
    (∀ e : String, DataBuilderService.processCustomer (Except.error e) = Except.error e) ∧
    (∀ resp : HttpResponse ProcessResult, resp.ok = false →
      DataBuilderService.processCustomer (Except.ok resp) =
        Except.error (errorOrStatus resp.errorField resp.status)) ∧
    (∀ e : String, DataBuilderService.generateReports (Except.error e) = Except.error e) ∧
    (∀ resp : HttpResponse ReportResult, resp.ok = false →
      DataBuilderService.generateReports (Except.ok resp) =
        Except.error (errorOrStatus resp.errorField resp.status)) ∧
    (∀ (m : String) (st : Nat), m ≠ "" → errorOrStatus (some m) st = m) ∧
    (∀ st : Nat, errorOrStatus none st = "Server returned status code " ++ toString st) ∧
    (∀ st : Nat, errorOrStatus (some "") st = "Server returned status code " ++ toString st) := by
  refine ⟨fun e => rfl, ?_, fun e => rfl, ?_, fun e => rfl, ?_, fun e => rfl, ?_,
          fun e => rfl, ?_, ?_, fun st => rfl, fun st => rfl⟩
  · intro resp h
    simp [DataBuilderService.checkHealth, h]
  · intro resp h
    simp [DataBuilderService.interpretUseCase, h]
  · intro resp h
    simp [DataBuilderService.generateData, h]
  · intro resp h
    simp [DataBuilderService.processCustomer, h]
  · intro resp h
    simp [DataBuilderService.generateReports, h]
  · intro m st hm
    simp [errorOrStatus, hm]

/-- Witness for C7 (amended): concrete failing responses for each of the
five operations produce the documented messages. -/
theorem api_error_messages_witness :
    DataBuilderService.checkHealth (Except.error "network down") = Except.error "network down" ∧
    DataBuilderService.checkHealth (Except.ok demoHealthErrorResponse) =
      Except.error ("Server returned status code " ++ toString demoHealthErrorResponse.status) ∧
    DataBuilderService.interpretUseCase (Except.ok demoInterpretErrorResponse) =
      Except.error (errorOrStatus demoInterpretErrorResponse.errorField
        demoInterpretErrorResponse.status) ∧
    DataBuilderService.generateData (Except.ok demoGenerateErrorResponse) =
      Except.error (errorOrStatus demoGenerateErrorResponse.errorField
        demoGenerateErrorResponse.status) ∧
    DataBuilderService.processCustomer (Except.ok demoProcessErrorResponse) =
      Except.error (errorOrStatus demoProcessErrorResponse.errorField
        demoProcessErrorResponse.status) ∧
    DataBuilderService.generateReports (Except.ok demoReportsErrorResponse) =
      Except.error (errorOrStatus demoReportsErrorResponse.errorField
        demoReportsErrorResponse.status) ∧
    errorOrStatus (some "boom") 404 = "boom" ∧
    errorOrStatus none 502 = "Server returned status code 502" ∧
    errorOrStatus (some "") 500 = "Server returned status code 500" := by
  obtain ⟨h1, h2, _, h4, _, h6, _, h8, _, h10, h11, h12, h13⟩ := api_error_messages
  exact ⟨h1 "network down", h2 demoHealthErrorResponse rfl, h4 demoInterpretErrorResponse rfl,
         h6 demoGenerateErrorResponse rfl, h8 demoProcessErrorResponse rfl,
         h10 demoReportsErrorResponse rfl, h11 "boom" 404 (by decide), h12 502, h13 500⟩

/-- C8: while `isLoading` is true none of the four step operations is
invocable, and once an operation starts (setting `isLoading`), no further
operation can start until it finishes: at most one call is in flight. -/
theorem inflight_gate :
    (∀ s : WizardState, s.isLoading = true → ∀ o : Op, opInvocable s o = false) ∧
    (∀ (s s' : WizardState) (o : Op), startOp s o = some s' →
      ∀ o' : Op, startOp s' o' = none) := by
  have hgate : ∀ s : WizardState, s.isLoading = true → ∀ o : Op, opInvocable s o = false := by
    intro s h o
    cases o <;>
      simp [opInvocable, interpretInvocable, generateInvocable, processInvocable,
            reportsInvocable, h]
  refine ⟨hgate, ?_⟩
  intro s s' o hstart o'
  unfold startOp at hstart
  split at hstart
  · cases hstart
    have hblock := hgate { s with isLoading := true } rfl o'
    simp [startOp, hblock]
  · cases hstart

/-- Witness for C8: with the flag set at a concrete state every operation
is blocked, and after a concrete start no second start is possible. -/
theorem inflight_gate_witness :
    opInvocable { demoState with isLoading := true } Op.generate = false ∧
    startOp { demoState with isLoading := true } Op.interpret = none :=
  ⟨inflight_gate.1 { demoState with isLoading := true } rfl Op.generate,
   inflight_gate.2 demoState { demoState with isLoading := true } Op.interpret
     (by decide) Op.interpret⟩

/-- C9: Start New Analysis does not clear the error banner: from a step-4
state with an error message shown, the reset keeps the message while
setting the step to 1 and clearing the six wizard entities. -/
theorem reset_preserves_error (s : WizardState) (msg : String)
    (_h4 : s.currentStep = 4) (herr : s.error = some msg) :
    (resetWizard s).error = some msg ∧ (resetWizard s).currentStep = 1 ∧
    (resetWizard s).useCase = "" ∧ (resetWizard s).useCaseResult = none ∧
    (resetWizard s).generatedData = none ∧ (resetWizard s).customerId = "" ∧
    (resetWizard s).processingResult = none ∧ (resetWizard s).reports = none :=
  ⟨herr, rfl, rfl, rfl, rfl, rfl, rfl, rfl⟩

/-- Witness for C9: resetting the concrete errored step-4 state keeps its
banner text. -/
theorem reset_preserves_error_witness :
    (resetWizard demoStep4State).error = some "Failed to generate reports: boom" ∧
    (resetWizard demoStep4State).currentStep = 1 ∧
    (resetWizard demoStep4State).useCase = "" ∧
    (resetWizard demoStep4State).useCaseResult = none ∧
    (resetWizard demoStep4State).generatedData = none ∧
    (resetWizard demoStep4State).customerId = "" ∧
    (resetWizard demoStep4State).processingResult = none ∧
    (resetWizard demoStep4State).reports = none :=
  reset_preserves_error demoStep4State "Failed to generate reports: boom" rfl rfl

/-- C10: submitting while the use-case text is empty or whitespace-only
after trimming is a silent no-op: the state is returned unchanged (no
popup, no banner) and the interpretation service is never invoked. -/
theorem blank_submit_noop (svc : String → Except String InterpretResult)
    (s : WizardState) (h : strTrim s.useCase = "") :
    handleUseCaseSubmit svc s = s :=
  handleUseCaseSubmit_of_blank svc s h

/-- Witness for C10: submitting the whitespace-only text changes nothing. -/
theorem blank_submit_noop_witness :
    handleUseCaseSubmit svcInterpretOk demoBlankState = demoBlankState :=
  blank_submit_noop svcInterpretOk demoBlankState (by decide)
